import Mathlib

/-!
Verification of the devops-tool-htmx control-plane core (src/main.go) against
its natural-language specification.

The Go code is shallowly embedded: Go string-keyed maps become association
lists of string pairs (`StrMap`), Go map indexing (which yields the empty
string on a missing key) becomes `mapGet`, Kubernetes API calls become
explicit `Except` values handed in as gateway responses, and Go runtime
panics (index out of range on an empty container slice, nil pointer
dereference) become explicit `GoPanic` errors.
-/

/-- Go `map[string]string`, as an association list (keys unique in practice,
but no proof of uniqueness is required by any theorem below). -/
abbrev StrMap := List (String × String)

/-- Go map indexing `m[k]`: the zero value (empty string) when the key is absent. -/
def mapGet (m : StrMap) (k : String) : String :=
  (m.lookup k).getD ""

/-- Go comma-ok map membership test `_, ok := m[k]`. -/
def mapHas (m : StrMap) (k : String) : Bool :=
  (m.lookup k).isSome

/-- Go map assignment `m[k] = v`: replace the binding of `k` if present,
otherwise append it. -/
def mapSet : StrMap → String → String → StrMap
  | [], k, v => [(k, v)]
  | (k₀, v₀) :: rest, k, v =>
      if k₀ = k then (k, v) :: rest else (k₀, v₀) :: mapSet rest k v

/-- Deletion of a key from a string map (used by the modelled gateway-side
JSON-patch `remove` operation). -/
def mapRemove : StrMap → String → StrMap
  | [], _ => []
  | (k₀, v₀) :: rest, k =>
      if k₀ = k then rest else (k₀, v₀) :: mapRemove rest k

/-- Go `strconv.ParseBool`: accepts exactly 1, t, T, TRUE, true, True,
0, f, F, FALSE, false, False; anything else (including the empty string
produced by a missing map key) is a parse error, modelled as `none`. -/
def parseBool : String → Option Bool
  | "1" => some true
  | "t" => some true
  | "T" => some true
  | "TRUE" => some true
  | "true" => some true
  | "True" => some true
  | "0" => some false
  | "f" => some false
  | "F" => some false
  | "FALSE" => some false
  | "false" => some false
  | "False" => some false
  | _ => none

/-- A container of a pod spec (only the image field is read by the program). -/
structure Container where
  image : String
  deriving Repr, DecidableEq

/-- `v1.PodSpec`: the list of declared containers. -/
structure PodSpec where
  containers : List Container
  deriving Repr, DecidableEq

/-- `v1.PodTemplateSpec`: pod-template labels and the pod spec. -/
structure PodTemplateSpec where
  labels : StrMap
  spec : PodSpec
  deriving Repr, DecidableEq

/-- `metav1.LabelSelector`: the match-labels map. -/
structure LabelSelector where
  matchLabels : StrMap
  deriving Repr, DecidableEq

/-- `appsv1.DeploymentSpec`. `replicas` is a pointer in Go (`*int32`),
hence an `Option`. -/
structure DeploymentSpec where
  replicas : Option Int
  selector : LabelSelector
  template : PodTemplateSpec
  deriving Repr, DecidableEq

/-- An `appsv1.Deployment` object as returned by the cluster gateway:
object metadata (name, labels, annotations), spec, and the one status
field the program reads. -/
structure K8sDeployment where
  name : String
  labels : StrMap
  annotations : StrMap
  spec : DeploymentSpec
  statusAvailableReplicas : Int
  deriving Repr, DecidableEq

/-- `v1.EndpointAddress`: `targetRef` is a pointer (`*ObjectReference`) in Go,
of which only the name is read. -/
structure EndpointAddress where
  targetRef : Option String
  ip : String
  deriving Repr, DecidableEq

/-- `v1.EndpointSubset`: its address list. -/
structure EndpointSubset where
  addresses : List EndpointAddress
  deriving Repr, DecidableEq

/-- A `v1.Endpoints` object: its subsets. -/
structure K8sEndpoints where
  subsets : List EndpointSubset
  deriving Repr, DecidableEq

/-- A `v1.Service` object: the program only reads its spec selector. -/
structure K8sService where
  selector : StrMap
  deriving Repr, DecidableEq

/-- The program's own `Deployment` view struct (src/main.go lines 27-33). -/
structure Deployment where
  name : String
  image : String
  track : String
  replicas : Int
  availableReplicas : Int
  deriving Repr, DecidableEq

/-- The program's `Endpoint` view struct (src/main.go lines 35-38). -/
structure Endpoint where
  targetPod : String
  ip : String
  deriving Repr, DecidableEq

/-- The program's `AppStateResponse` struct (src/main.go lines 40-44). -/
structure AppStateResponse where
  canaryEnabled : Bool
  deployments : List Deployment
  endpoints : List Endpoint
  deriving Repr, DecidableEq

/-- A Go runtime panic reachable from the embedded code. -/
inductive GoPanic where
  | indexOutOfRange
  | nilDereference
  deriving Repr, DecidableEq

/-- An error returned by a cluster gateway call (the Kubernetes client). -/
inductive GatewayError where
  | notFound (resource : String)
  | transport (msg : String)
  deriving Repr, DecidableEq

/-- How a request handler of the program terminates abnormally: either a
gateway call returned an error (propagated by an early `return nil, err`)
or the Go code panicked. -/
inductive AppError where
  | gateway (e : GatewayError)
  | panic (p : GoPanic)
  deriving Repr, DecidableEq

/-- The per-item body of `asCustomDeployment` (src/main.go lines 61-67):
reads `v.Spec.Template.Spec.Containers[0].Image` (panics with index out of
range when no containers are declared) and `*v.Spec.Replicas` (panics with a
nil dereference when the pointer is nil). -/
def asCustomDeployment1 (v : K8sDeployment) : Except GoPanic Deployment :=
  match v.spec.template.spec.containers with
  | [] => Except.error GoPanic.indexOutOfRange
  | c :: _ =>
      match v.spec.replicas with
      | none => Except.error GoPanic.nilDereference
      | some r =>
          Except.ok
            { name := v.name
              image := c.image
              track := mapGet v.labels "track"
              replicas := r
              availableReplicas := v.statusAvailableReplicas }

/-- `asCustomDeployment` (src/main.go lines 58-71): maps every deployment to
the custom view; a panic on any item aborts the whole conversion. -/
def asCustomDeployment (deployments : List K8sDeployment) :
    Except GoPanic (List Deployment) :=
  deployments.mapM asCustomDeployment1

/-- The per-item body of `asCustomEndpoint` (src/main.go lines 76-79):
dereferences `v.TargetRef` (a pointer, panics if nil). -/
def asCustomEndpoint1 (v : EndpointAddress) : Except GoPanic Endpoint :=
  match v.targetRef with
  | none => Except.error GoPanic.nilDereference
  | some n => Except.ok { targetPod := n, ip := v.ip }

/-- `asCustomEndpoint` (src/main.go lines 73-83). -/
def asCustomEndpoint (addresses : List EndpointAddress) :
    Except GoPanic (List Endpoint) :=
  addresses.mapM asCustomEndpoint1

/-- The filter of the managed-deployments loop in `GetAppState`
(src/main.go lines 96-107): skip if the devops-tool-htmx marker fails the
boolean parse, skip if the `track` label KEY is absent, keep iff the parsed
marker is true. -/
def keepManaged (v : K8sDeployment) : Bool :=
  match parseBool (mapGet v.annotations "devops-tool-htmx") with
  | none => false
  | some managed =>
      if mapHas v.labels "track" then managed else false

/-- The canary-enabled computation of `GetAppState` (src/main.go line 123):
`!(svc.Spec.Selector["track"] == "main")`, with Go map indexing yielding the
empty string on a missing key. -/
def canaryEnabledOf (selector : StrMap) : Bool :=
  !(mapGet selector "track" == "main")

/-- The results the three gateway calls of `GetAppState` return, in program
order: the label-selected deployment list, the endpoints object fetched by
name, and the service object fetched by name. -/
structure GatewayResponses where
  listDeployments : Except GatewayError (List K8sDeployment)
  getEndpoints : Except GatewayError K8sEndpoints
  getService : Except GatewayError K8sService

/-- The address extraction of `GetAppState` (src/main.go lines 118-121):
`addresses` starts empty and is overwritten with the first subset's
addresses when at least one subset exists. -/
def firstSubsetAddresses (endpoint : K8sEndpoints) : List EndpointAddress :=
  match endpoint.subsets with
  | [] => []
  | s :: _ => s.addresses

/-- `GetAppState` (src/main.go lines 85-130), with the three gateway calls
replaced by their responses. Control flow mirrors the source: each failed
fetch returns immediately (`return nil, err`); then addresses are taken from
the first subset if any; then the response struct literal is built, whose
field initializers run `asCustomDeployment` and then `asCustomEndpoint`
(either of which can panic). -/
def GetAppState (resp : GatewayResponses) : Except AppError AppStateResponse :=
  match resp.listDeployments with
  | Except.error e => Except.error (AppError.gateway e)
  | Except.ok deps =>
      let managedDeployments := deps.filter keepManaged
      match resp.getEndpoints with
      | Except.error e => Except.error (AppError.gateway e)
      | Except.ok endpoint =>
          match resp.getService with
          | Except.error e => Except.error (AppError.gateway e)
          | Except.ok svc =>
              let addresses := firstSubsetAddresses endpoint
              match asCustomDeployment managedDeployments with
              | Except.error p => Except.error (AppError.panic p)
              | Except.ok ds =>
                  match asCustomEndpoint addresses with
                  | Except.error p => Except.error (AppError.panic p)
                  | Except.ok es =>
                      Except.ok
                        { canaryEnabled := canaryEnabledOf svc.selector
                          deployments := ds
                          endpoints := es }

/-- Modelled from the spec: the gateway-side label-selector listing used by
State Projector step 1 ("List all ReplicaManagedWorkload objects whose app
label equals applicationName"); the listing itself is performed by the
cluster, not by code under src/. -/
def listByApp (cluster : List K8sDeployment) (name : String) : List K8sDeployment :=
  cluster.filter (fun d => d.labels.lookup "app" == some name)

/-- `strings.SplitN(s, ":", 2)[0]`, on the character list: the longest
prefix of the string before the first colon (the whole string when it has
no colon). -/
def takeUntilColon : List Char → List Char
  | [] => []
  | c :: cs => if c = ':' then [] else c :: takeUntilColon cs

/-- First component of `strings.SplitN(image, ":", 2)` (src/main.go line 238). -/
def splitFirstColon (s : String) : String :=
  String.mk (takeUntilColon s.data)

/-- The canary image computation (src/main.go lines 238-239):
`fmt.Sprintf("%s:%s", imageSplit[0], req.Tag)` with `imageSplit` the
2-bounded split of the primary image on colons. -/
def canaryImage (image tag : String) : String :=
  splitFirstColon image ++ ":" ++ tag

/-- `strings.ReplaceAll(token, "_", "-")` (src/main.go line 222),
specialized to its single-character pattern and replacement: every
underscore character becomes a dash. -/
def replaceUnderscores (s : String) : String :=
  String.mk (s.data.map (fun c => if c = '_' then '-' else c))

/-- The `CanaryCreateRequest` body (src/main.go lines 46-49). -/
structure CanaryCreateRequest where
  tag : String
  replicas : Int
  deriving Repr, DecidableEq

/-- The core of the create-canary handler (src/main.go lines 215-241),
with the fetch of the primary deployment replaced by its gateway response
and the random human-readable token passed in (`namesgenerator.GetRandomName`
is the out-of-scope name generator; the handler normalizes its underscores
to dashes). Returns the canary deployment object handed to the gateway's
Create call. The object metadata is freshly built: labels start as the
literal map containing only app bound to the string nginx, then the three
track labels are assigned, the replica pointer is set to the request's
count, and the first container's image is rewritten — reading
`Containers[0]` panics when the cloned spec declares no containers. -/
def spawnCanary (name : String) (req : CanaryCreateRequest) (token : String)
    (getPrimary : Except GatewayError K8sDeployment) :
    Except AppError K8sDeployment :=
  match getPrimary with
  | Except.error e => Except.error (AppError.gateway e)
  | Except.ok deployment =>
      match deployment.spec.template.spec.containers with
      | [] => Except.error (AppError.panic GoPanic.indexOutOfRange)
      | c :: cs =>
          Except.ok
            { name := name ++ "-canary-" ++ replaceUnderscores token
              labels := mapSet [("app", "nginx")] "track" "canary"
              annotations := [("devops-tool-htmx", "true")]
              spec :=
                { replicas := some req.replicas
                  selector :=
                    { matchLabels :=
                        mapSet deployment.spec.selector.matchLabels "track" "canary" }
                  template :=
                    { labels := mapSet deployment.spec.template.labels "track" "canary"
                      spec := { containers := { image := canaryImage c.image req.tag } :: cs } } }
              statusAvailableReplicas := 0 }

/-- The JSON-patch operation struct built by the set_canary handler
(src/main.go lines 51-56 and 259-269), restricted to the two shapes the
program produces over the fixed path /spec/selector/track. -/
inductive PatchOp where
  | add (path : String) (value : String)
  | remove (path : String)
  deriving Repr, DecidableEq

/-- Patch construction of the set_canary handler (src/main.go lines 259-269):
start from an add of "main" at /spec/selector/track and flip the op to
remove when enabled. -/
def trafficPatch (enabled : Bool) : PatchOp :=
  if enabled then PatchOp.remove "/spec/selector/track"
  else PatchOp.add "/spec/selector/track" "main"

/-- Modelled from the spec: the Cluster Resource Gateway's application of
`PatchRoutingServiceSelector` to the service selector is performed by the
orchestrator, not by code under src/. Spec 4.3 step 1: "if enabled, remove
the track key from the RoutingService's selector; if not enabled, add/set
track = main"; spec 9 represents the payload as a tagged variant over the
fixed key path. -/
def applyPatch (op : PatchOp) (selector : StrMap) : StrMap :=
  match op with
  | PatchOp.add _ v => mapSet selector "track" v
  | PatchOp.remove _ => mapRemove selector "track"

/-- The selector transition performed by one set_canary invocation: the
patch built from `enabled` (src/main.go lines 259-274), applied by the
gateway to the routing service's selector. -/
def setCanaryTraffic (enabled : Bool) (selector : StrMap) : StrMap :=
  applyPatch (trafficPatch enabled) selector

/-- The primary deployment of the example manifest shipped with the
repository (application nginx: labels app=nginx, track=main, opt-in marker
set, 3 replicas, image nginx:1.25.0-alpine). -/
def primaryNginx : K8sDeployment :=
  { name := "nginx"
    labels := [("app", "nginx"), ("track", "main")]
    annotations := [("devops-tool-htmx", "true")]
    spec :=
      { replicas := some 3
        selector := { matchLabels := [("app", "nginx"), ("track", "main")] }
        template :=
          { labels := [("app", "nginx"), ("track", "main")]
            spec := { containers := [{ image := "nginx:1.25.0-alpine" }] } } }
    statusAvailableReplicas := 3 }

/-- A primary deployment for an application named web (any application other
than nginx), used to exercise the create-canary path for a non-nginx name. -/
def primaryWeb : K8sDeployment :=
  { name := "web"
    labels := [("app", "web"), ("track", "main")]
    annotations := [("devops-tool-htmx", "true")]
    spec :=
      { replicas := some 2
        selector := { matchLabels := [("app", "web"), ("track", "main")] }
        template :=
          { labels := [("app", "web"), ("track", "main")]
            spec := { containers := [{ image := "python:3.12" }] } } }
    statusAvailableReplicas := 2 }

/-- A workload whose opt-in marker parses as true and whose track label KEY
is present but bound to the empty string. -/
def emptyTrackWorkload : K8sDeployment :=
  { name := "web-blank-track"
    labels := [("app", "web"), ("track", "")]
    annotations := [("devops-tool-htmx", "true")]
    spec :=
      { replicas := some 1
        selector := { matchLabels := [("app", "web"), ("track", "")] }
        template :=
          { labels := [("app", "web"), ("track", "")]
            spec := { containers := [{ image := "busybox:1" }] } } }
    statusAvailableReplicas := 1 }

/-- A kept workload (marker true, track label present) that declares no
containers. -/
def noContainersWorkload : K8sDeployment :=
  { name := "web-empty"
    labels := [("app", "web"), ("track", "main")]
    annotations := [("devops-tool-htmx", "true")]
    spec :=
      { replicas := some 1
        selector := { matchLabels := [("app", "web"), ("track", "main")] }
        template :=
          { labels := [("app", "web"), ("track", "main")]
            spec := { containers := [] } } }
    statusAvailableReplicas := 0 }

/-- The surfacing filter as the SPEC's words state it (for comparison with
`keepManaged`, which is translated from the source): keep an object only if
its marker parses as the boolean true AND it carries a NON-EMPTY track
label. -/
def specSurfacesWorkload (v : K8sDeployment) : Bool :=
  (parseBool (mapGet v.annotations "devops-tool-htmx") == some true)
    && (mapGet v.labels "track" != "")

theorem lookup_mapSet_self (m : StrMap) (k v : String) :
    (mapSet m k v).lookup k = some v := by
  induction m with
  | nil => simp [mapSet, List.lookup]
  | cons p rest ih =>
      obtain ⟨k₀, v₀⟩ := p
      by_cases h : k₀ = k
      · subst h
        simp [mapSet, List.lookup]
      · have hkk : (k == k₀) = false :=
          beq_eq_false_iff_ne.mpr fun hy => h hy.symm
        simp only [mapSet, if_neg h, List.lookup, hkk]
        exact ih

theorem mapSet_of_lookup_eq (m : StrMap) (k v : String)
    (h : m.lookup k = some v) : mapSet m k v = m := by
  induction m with
  | nil => simp [List.lookup] at h
  | cons p rest ih =>
      obtain ⟨k₀, v₀⟩ := p
      by_cases hk : k₀ = k
      · subst hk
        simp only [List.lookup, beq_self_eq_true, Option.some.injEq] at h
        subst h
        simp [mapSet]
      · have hkk : (k == k₀) = false :=
          beq_eq_false_iff_ne.mpr fun hy => hk hy.symm
        simp only [List.lookup, hkk] at h
        simp [mapSet, if_neg hk, ih h]

theorem mapRemove_of_lookup_none (m : StrMap) (k : String)
    (h : m.lookup k = none) : mapRemove m k = m := by
  induction m with
  | nil => simp [mapRemove]
  | cons p rest ih =>
      obtain ⟨k₀, v₀⟩ := p
      by_cases hk : k₀ = k
      · subst hk
        simp only [List.lookup, beq_self_eq_true] at h
        exact Option.noConfusion h
      · have hkk : (k == k₀) = false :=
          beq_eq_false_iff_ne.mpr fun hy => hk hy.symm
        simp only [List.lookup, hkk] at h
        simp [mapRemove, if_neg hk, ih h]

theorem mapSet_idem (m : StrMap) (k v : String) :
    mapSet (mapSet m k v) k v = mapSet m k v := by
  induction m with
  | nil => simp [mapSet]
  | cons p rest ih =>
      obtain ⟨k₀, v₀⟩ := p
      by_cases hk : k₀ = k
      · subst hk
        simp [mapSet]
      · simp [mapSet, if_neg hk, ih]

theorem takeUntilColon_of_not_mem (l : List Char) (h : ':' ∉ l) :
    takeUntilColon l = l := by
  induction l with
  | nil => rfl
  | cons c cs ih =>
      have hc : ¬c = ':' := fun hc => h (hc ▸ List.mem_cons_self c cs)
      simp [takeUntilColon, hc, ih (fun hm => h (List.mem_cons_of_mem c hm))]

theorem takeUntilColon_append_colon (a b : List Char) (h : ':' ∉ a) :
    takeUntilColon (a ++ ':' :: b) = a := by
  induction a with
  | nil => simp [takeUntilColon]
  | cons c cs ih =>
      have hc : ¬c = ':' := fun hc => h (hc ▸ List.mem_cons_self c cs)
      simp [takeUntilColon, hc, ih (fun hm => h (List.mem_cons_of_mem c hm))]

theorem splitFirstColon_of_not_mem (s : String) (h : ':' ∉ s.data) :
    splitFirstColon s = s := by
  unfold splitFirstColon
  rw [takeUntilColon_of_not_mem s.data h]

theorem splitFirstColon_append (a b : String) (h : ':' ∉ a.data) :
    splitFirstColon (a ++ ":" ++ b) = a := by
  unfold splitFirstColon
  have hd : (a ++ ":" ++ b).data = a.data ++ ':' :: b.data := by
    rw [String.data_append, String.data_append]
    simp [(show (":" : String).data = [':'] from rfl)]
  rw [hd, takeUntilColon_append_colon a.data b.data h]

/-- A gateway-response triple for the example nginx application: one primary
deployment, an endpoints object with no subsets, and the manifest's service
selector. -/
def nginxResponses : GatewayResponses :=
  { listDeployments := Except.ok [primaryNginx]
    getEndpoints := Except.ok { subsets := [] }
    getService := Except.ok { selector := [("app", "nginx"), ("track", "main")] } }

/-- The app state the projector computes for `nginxResponses`. -/
def nginxAppState : AppStateResponse :=
  { canaryEnabled := false
    deployments :=
      [{ name := "nginx", image := "nginx:1.25.0-alpine", track := "main",
         replicas := 3, availableReplicas := 3 }]
    endpoints := [] }

/-- C1: the canaryEnabled field computed by the State Projector is false iff
the routing-service selector's track key is present and exactly equals
"main"; it is true otherwise (absent key, or any other value, with Go map
indexing yielding the empty string on a missing key); and on any successful
read the returned AppState's canaryEnabled field is exactly this function of
the fetched service's selector. -/
theorem canaryEnabled_iff_track_main :
    ∀ sel : StrMap,
      (canaryEnabledOf sel = false ↔ sel.lookup "track" = some "main") ∧
      (∀ (resp : GatewayResponses) (svc : K8sService) (st : AppStateResponse),
        resp.getService = Except.ok svc → GetAppState resp = Except.ok st →
        st.canaryEnabled = canaryEnabledOf svc.selector) := by
  intro sel
  constructor
  · cases h : sel.lookup "track" with
    | none => simp [canaryEnabledOf, mapGet, h]
    | some v => simp [canaryEnabledOf, mapGet, h]
  · intro resp svc st hsvc hok
    obtain ⟨ld, ge, gs⟩ := resp
    dsimp only at hsvc
    subst hsvc
    cases ld with
    | error e =>
        simp only [GetAppState] at hok
        exact Except.noConfusion hok
    | ok deps =>
        cases ge with
        | error e =>
            simp only [GetAppState] at hok
            exact Except.noConfusion hok
        | ok ep =>
            cases hd : asCustomDeployment (deps.filter keepManaged) with
            | error p =>
                simp only [GetAppState, hd] at hok
                exact Except.noConfusion hok
            | ok ds =>
                cases hee : asCustomEndpoint (firstSubsetAddresses ep) with
                | error p =>
                    simp only [GetAppState, hd, hee] at hok
                    exact Except.noConfusion hok
                | ok es =>
                    simp only [GetAppState, hd, hee, Except.ok.injEq] at hok
                    rw [← hok]

/-- Witness for C1 at the example application: the manifest selector with
track=main computes to canary disabled, and the projected state's field
agrees with the selector computation. -/
theorem canaryEnabled_iff_track_main_witness :
    canaryEnabledOf [("app", "nginx"), ("track", "main")] = false ∧
    nginxAppState.canaryEnabled =
      canaryEnabledOf [("app", "nginx"), ("track", "main")] :=
  ⟨(canaryEnabled_iff_track_main [("app", "nginx"), ("track", "main")]).1.mpr rfl,
   (canaryEnabled_iff_track_main []).2 nginxResponses
     { selector := [("app", "nginx"), ("track", "main")] } nginxAppState rfl rfl⟩

/-- C3: the canary image is computed by splitting the primary image on the
first colon and appending the supplied tag: any image repo:suffix (repo
colon-free) with tag t maps to repo:t, any colon-free image s maps to s:t,
the canary object built by spawnCanary carries exactly this image, and the
two concrete examples nginx:1.25.0-alpine/beta to nginx:beta and myimage/v2
to myimage:v2 hold. -/
theorem canaryImage_splits_on_first_colon :
    (∀ repo suffix tag : String, ':' ∉ repo.data →
        canaryImage (repo ++ ":" ++ suffix) tag = repo ++ ":" ++ tag) ∧
    (∀ repo tag : String, ':' ∉ repo.data →
        canaryImage repo tag = repo ++ ":" ++ tag) ∧
    (∀ (name token : String) (req : CanaryCreateRequest) (d : K8sDeployment)
        (c : Container) (cs : List Container),
        d.spec.template.spec.containers = c :: cs →
        ∃ w, spawnCanary name req token (Except.ok d) = Except.ok w ∧
          w.spec.template.spec.containers.head?.map Container.image =
            some (canaryImage c.image req.tag)) ∧
    canaryImage "nginx:1.25.0-alpine" "beta" = "nginx:beta" ∧
    canaryImage "myimage" "v2" = "myimage:v2" := by
  refine ⟨?_, ?_, ?_, by decide, by decide⟩
  · intro repo suffix tag h
    unfold canaryImage
    rw [splitFirstColon_append repo suffix h]
  · intro repo tag h
    unfold canaryImage
    rw [splitFirstColon_of_not_mem repo h]
  · intro name token req d c cs hc
    simp only [spawnCanary, hc]
    exact ⟨_, rfl, rfl⟩

/-- Witness for C3: instantiates the general split laws and the spawnCanary
image override at the example primary. -/
theorem canaryImage_splits_witness :
    canaryImage ("nginx" ++ ":" ++ "1.25.0-alpine") "beta" =
      "nginx" ++ ":" ++ "beta" ∧
    canaryImage "myimage" "v2" = "myimage" ++ ":" ++ "v2" ∧
    ∃ w, spawnCanary "nginx" { tag := "beta", replicas := 1 } "bold_cat"
          (Except.ok primaryNginx) = Except.ok w ∧
        w.spec.template.spec.containers.head?.map Container.image =
          some (canaryImage "nginx:1.25.0-alpine" "beta") :=
  ⟨canaryImage_splits_on_first_colon.1 "nginx" "1.25.0-alpine" "beta" (by decide),
   canaryImage_splits_on_first_colon.2.1 "myimage" "v2" (by decide),
   canaryImage_splits_on_first_colon.2.2.1 "nginx" "bold_cat"
     { tag := "beta", replicas := 1 } primaryNginx
     { image := "nginx:1.25.0-alpine" } [] rfl⟩

/-- C4: the traffic switch is idempotent and its no-op cases are not errors:
enabling when the selector has no track key leaves the selector unchanged,
disabling when the selector already maps track to "main" leaves it
unchanged, and disabling twice equals disabling once (the selector
transition is a total function, so no invocation fails). -/
theorem setCanaryTraffic_idempotent :
    ∀ sel : StrMap,
      (sel.lookup "track" = none → setCanaryTraffic true sel = sel) ∧
      (sel.lookup "track" = some "main" → setCanaryTraffic false sel = sel) ∧
      setCanaryTraffic false (setCanaryTraffic false sel) =
        setCanaryTraffic false sel := by
  intro sel
  refine ⟨?_, ?_, ?_⟩
  · intro h
    exact mapRemove_of_lookup_none sel "track" h
  · intro h
    exact mapSet_of_lookup_eq sel "track" "main" h
  · exact mapSet_idem sel "track" "main"

/-- Witness for C4: an already-enabled selector (no track key) is unchanged
by enable, and the manifest's disabled selector is unchanged by disable. -/
theorem setCanaryTraffic_idempotent_witness :
    setCanaryTraffic true [("app", "nginx")] = [("app", "nginx")] ∧
    setCanaryTraffic false [("app", "nginx"), ("track", "main")] =
      [("app", "nginx"), ("track", "main")] ∧
    setCanaryTraffic false
        (setCanaryTraffic false [("app", "nginx"), ("track", "main")]) =
      setCanaryTraffic false [("app", "nginx"), ("track", "main")] :=
  ⟨(setCanaryTraffic_idempotent [("app", "nginx")]).1 rfl,
   (setCanaryTraffic_idempotent [("app", "nginx"), ("track", "main")]).2.1 rfl,
   (setCanaryTraffic_idempotent [("app", "nginx"), ("track", "main")]).2.2⟩

/-- C2 (amended): the State Projector surfaces exactly those listed objects
whose devops-tool-htmx marker parses as the boolean true AND whose track
label KEY is present (its value may be any string, including the empty
string); objects whose marker is missing or fails the boolean parse are
excluded by the filter, not by an error; and every successful read's
deployments are exactly the converted filtered list. -/
theorem keepManaged_iff :
    (∀ v : K8sDeployment,
        keepManaged v = true ↔
          parseBool (mapGet v.annotations "devops-tool-htmx") = some true ∧
            mapHas v.labels "track" = true) ∧
    (∀ (resp : GatewayResponses) (deps : List K8sDeployment)
        (st : AppStateResponse),
        resp.listDeployments = Except.ok deps → GetAppState resp = Except.ok st →
        asCustomDeployment (deps.filter keepManaged) = Except.ok st.deployments) := by
  constructor
  · intro v
    unfold keepManaged
    cases hp : parseBool (mapGet v.annotations "devops-tool-htmx") with
    | none => simp
    | some b =>
        cases b with
        | false => simp [ite_self]
        | true =>
            cases hh : mapHas v.labels "track" with
            | false => simp [hh]
            | true => simp [hh]
  · intro resp deps st hdeps hok
    obtain ⟨ld, ge, gs⟩ := resp
    dsimp only at hdeps
    subst hdeps
    cases ge with
    | error e =>
        simp only [GetAppState] at hok
        exact Except.noConfusion hok
    | ok ep =>
        cases gs with
        | error e =>
            simp only [GetAppState] at hok
            exact Except.noConfusion hok
        | ok svc =>
            cases hd : asCustomDeployment (deps.filter keepManaged) with
            | error p =>
                simp only [GetAppState, hd] at hok
                exact Except.noConfusion hok
            | ok ds =>
                cases hee : asCustomEndpoint (firstSubsetAddresses ep) with
                | error p =>
                    simp only [GetAppState, hd, hee] at hok
                    exact Except.noConfusion hok
                | ok es =>
                    simp only [GetAppState, hd, hee, Except.ok.injEq] at hok
                    rw [← hok]

/-- Witness for C2 (amended): the example primary passes the filter, and the
example read's deployments are the converted filtered list. -/
theorem keepManaged_iff_witness :
    keepManaged primaryNginx = true ∧
    asCustomDeployment ([primaryNginx].filter keepManaged) =
      Except.ok nginxAppState.deployments :=
  ⟨(keepManaged_iff.1 primaryNginx).mpr ⟨rfl, rfl⟩,
   keepManaged_iff.2 nginxResponses [primaryNginx] nginxAppState rfl rfl⟩

/-- C2 counterexample: a workload whose track label KEY is present but bound
to the empty string is surfaced by the projector (the code tests key
presence only), while the claim's filter — marker true AND a non-empty
track label — says it must be excluded; the projector returns it with an
empty track field. -/
theorem keepManaged_empty_track_counterexample :
    keepManaged emptyTrackWorkload = true ∧
    specSurfacesWorkload emptyTrackWorkload = false ∧
    GetAppState
        { listDeployments := Except.ok [emptyTrackWorkload]
          getEndpoints := Except.ok { subsets := [] }
          getService := Except.ok { selector := [("app", "web")] } } =
      Except.ok
        { canaryEnabled := true
          deployments :=
            [{ name := "web-blank-track", image := "busybox:1", track := "",
               replicas := 1, availableReplicas := 1 }]
          endpoints := [] } :=
  ⟨rfl, rfl, rfl⟩

/-- C7 (amended): converting a kept workload that declares no containers
aborts with a Go index-out-of-range panic (the source reads Containers[0]
unguarded; it defines no MalformedWorkload error), and for a workload with
at least one container (and a non-nil replica pointer, also dereferenced
unguarded) the produced view's image is read from the first declared
container. -/
theorem asCustomDeployment_first_container :
    ∀ v : K8sDeployment,
      (v.spec.template.spec.containers = [] →
        asCustomDeployment1 v = Except.error GoPanic.indexOutOfRange) ∧
      (∀ (c : Container) (cs : List Container) (r : Int),
        v.spec.template.spec.containers = c :: cs → v.spec.replicas = some r →
        asCustomDeployment1 v =
          Except.ok
            { name := v.name, image := c.image, track := mapGet v.labels "track",
              replicas := r, availableReplicas := v.statusAvailableReplicas }) := by
  intro v
  constructor
  · intro h
    simp only [asCustomDeployment1, h]
  · intro c cs r hc hr
    simp only [asCustomDeployment1, hc, hr]

/-- Witness for C7 (amended): the no-container fixture panics; the example
primary converts with the image of its first container. -/
theorem asCustomDeployment_first_container_witness :
    asCustomDeployment1 noContainersWorkload =
      Except.error GoPanic.indexOutOfRange ∧
    asCustomDeployment1 primaryNginx =
      Except.ok
        { name := "nginx", image := "nginx:1.25.0-alpine", track := "main",
          replicas := 3, availableReplicas := 3 } :=
  ⟨(asCustomDeployment_first_container noContainersWorkload).1 rfl,
   (asCustomDeployment_first_container primaryNginx).2
     { image := "nginx:1.25.0-alpine" } [] 3 rfl rfl⟩

/-- C7 counterexample: on a kept workload with no declared containers the
State Projector's read terminates with the index-out-of-range panic — a Go
crash, not a MalformedWorkload failure (the embedded error type, like the
source, has no MalformedWorkload kind). -/
theorem noContainers_panics_counterexample :
    keepManaged noContainersWorkload = true ∧
    GetAppState
        { listDeployments := Except.ok [noContainersWorkload]
          getEndpoints := Except.ok { subsets := [] }
          getService := Except.ok { selector := [("app", "web"), ("track", "main")] } } =
      Except.error (AppError.panic GoPanic.indexOutOfRange) :=
  ⟨rfl, rfl⟩

/-- C9: the State Projector is all-or-nothing over its three gateway
fetches, in program order: a failed workload list fails the read; a failed
endpoint-set fetch after a successful list fails the read; a failed
routing-service fetch after both successes fails the read — each time with
the gateway error and no AppState. -/
theorem GetAppState_all_or_nothing :
    ∀ (resp : GatewayResponses) (e : GatewayError),
      (resp.listDeployments = Except.error e →
        GetAppState resp = Except.error (AppError.gateway e)) ∧
      (∀ deps, resp.listDeployments = Except.ok deps →
        resp.getEndpoints = Except.error e →
        GetAppState resp = Except.error (AppError.gateway e)) ∧
      (∀ deps ep, resp.listDeployments = Except.ok deps →
        resp.getEndpoints = Except.ok ep →
        resp.getService = Except.error e →
        GetAppState resp = Except.error (AppError.gateway e)) := by
  intro resp e
  refine ⟨?_, ?_, ?_⟩
  · intro h
    simp [GetAppState, h]
  · intro deps h1 h2
    simp [GetAppState, h1, h2]
  · intro deps ep h1 h2 h3
    simp [GetAppState, h1, h2, h3]

/-- Witness for C9 at the key scenario of the claim: the workload list
succeeds and the endpoint-set fetch fails, so the whole read fails with that
gateway error. -/
theorem GetAppState_all_or_nothing_witness :
    GetAppState
        { listDeployments := Except.ok [primaryNginx]
          getEndpoints := Except.error (GatewayError.notFound "endpoints nginx")
          getService := Except.ok { selector := [("app", "nginx"), ("track", "main")] } } =
      Except.error (AppError.gateway (GatewayError.notFound "endpoints nginx")) :=
  (GetAppState_all_or_nothing
      { listDeployments := Except.ok [primaryNginx]
        getEndpoints := Except.error (GatewayError.notFound "endpoints nginx")
        getService := Except.ok { selector := [("app", "nginx"), ("track", "main")] } }
      (GatewayError.notFound "endpoints nginx")).2.1 [primaryNginx] rfl rfl

/-- C8: every canary object the spawner hands to the gateway's Create call
has track bound to "canary" in all three places — object label, pod-selector
match label, and pod-template label. -/
theorem spawnCanary_track_labels_consistent :
    ∀ (name token : String) (req : CanaryCreateRequest) (d w : K8sDeployment),
      spawnCanary name req token (Except.ok d) = Except.ok w →
      w.labels.lookup "track" = some "canary" ∧
      w.spec.selector.matchLabels.lookup "track" = some "canary" ∧
      w.spec.template.labels.lookup "track" = some "canary" := by
  intro name token req d w h
  cases hc : d.spec.template.spec.containers with
  | nil =>
      simp only [spawnCanary, hc] at h
      exact Except.noConfusion h
  | cons c cs =>
      simp only [spawnCanary, hc, Except.ok.injEq] at h
      subst h
      exact ⟨lookup_mapSet_self [("app", "nginx")] "track" "canary",
        lookup_mapSet_self d.spec.selector.matchLabels "track" "canary",
        lookup_mapSet_self d.spec.template.labels "track" "canary"⟩

/-- The canary object the spawner builds for the example primary with tag
beta, one replica, and token bold_cat. -/
def canaryNginxExample : K8sDeployment :=
  { name := "nginx-canary-bold-cat"
    labels := [("app", "nginx"), ("track", "canary")]
    annotations := [("devops-tool-htmx", "true")]
    spec :=
      { replicas := some 1
        selector := { matchLabels := [("app", "nginx"), ("track", "canary")] }
        template :=
          { labels := [("app", "nginx"), ("track", "canary")]
            spec := { containers := [{ image := "nginx:beta" }] } } }
    statusAvailableReplicas := 0 }

/-- Witness for C8 at the example canary. -/
theorem spawnCanary_track_labels_witness :
    canaryNginxExample.labels.lookup "track" = some "canary" ∧
    canaryNginxExample.spec.selector.matchLabels.lookup "track" = some "canary" ∧
    canaryNginxExample.spec.template.labels.lookup "track" = some "canary" :=
  spawnCanary_track_labels_consistent "nginx" "bold_cat"
    { tag := "beta", replicas := 1 } primaryNginx canaryNginxExample rfl

/-- C10: every canary object the spawner builds carries the opt-in marker
devops-tool-htmx set to "true" and a track label, so it passes the State
Projector's filter; whenever it is in the cluster, a listing for the
application name its app label carries returns it and the filter keeps it. -/
theorem spawnCanary_passes_filter :
    ∀ (name token : String) (req : CanaryCreateRequest) (d w : K8sDeployment),
      spawnCanary name req token (Except.ok d) = Except.ok w →
      keepManaged w = true ∧
      ∀ cluster : List K8sDeployment, w ∈ cluster →
        w ∈ (listByApp cluster (mapGet w.labels "app")).filter keepManaged := by
  intro name token req d w h
  cases hc : d.spec.template.spec.containers with
  | nil =>
      simp only [spawnCanary, hc] at h
      exact Except.noConfusion h
  | cons c cs =>
      simp only [spawnCanary, hc, Except.ok.injEq] at h
      subst h
      refine ⟨rfl, ?_⟩
      intro cluster hmem
      apply List.mem_filter.mpr
      refine ⟨?_, rfl⟩
      apply List.mem_filter.mpr
      exact ⟨hmem, rfl⟩

/-- Witness for C10 at the example canary inside a two-object cluster. -/
theorem spawnCanary_passes_filter_witness :
    keepManaged canaryNginxExample = true ∧
    canaryNginxExample ∈
      (listByApp [primaryNginx, canaryNginxExample]
          (mapGet canaryNginxExample.labels "app")).filter keepManaged := by
  have h := spawnCanary_passes_filter "nginx" "bold_cat"
    { tag := "beta", replicas := 1 } primaryNginx canaryNginxExample rfl
  exact ⟨h.1, h.2 [primaryNginx, canaryNginxExample] (by simp)⟩

/-- The canary object the spawner builds for application web with tag beta:
its app label is the hard-coded string nginx, not web. -/
def canaryOfWeb : K8sDeployment :=
  { name := "web-canary-bold-cat"
    labels := [("app", "nginx"), ("track", "canary")]
    annotations := [("devops-tool-htmx", "true")]
    spec :=
      { replicas := some 1
        selector := { matchLabels := [("app", "web"), ("track", "canary")] }
        template :=
          { labels := [("app", "web"), ("track", "canary")]
            spec := { containers := [{ image := "python:beta" }] } } }
    statusAvailableReplicas := 0 }

/-- C5 (code-bug evaluation): the spawner labels every canary with the
LITERAL app=nginx (src/main.go line 224) instead of the application name:
for application web the created canary's app label is nginx, so a gateway
listing for app=web returns no canary — the subsequent state read for web
cannot include it as an additional deployment — while a listing for
app=nginx would. -/
theorem spawnCanary_hardcoded_app_label :
    spawnCanary "web" { tag := "beta", replicas := 1 } "bold_cat"
        (Except.ok primaryWeb) = Except.ok canaryOfWeb ∧
    mapGet canaryOfWeb.labels "app" = "nginx" ∧
    listByApp [canaryOfWeb] "web" = [] ∧
    listByApp [canaryOfWeb] "nginx" = [canaryOfWeb] :=
  ⟨rfl, rfl, rfl, rfl⟩

/-- C6 counterexample: invoking the canary spawner with an EMPTY image tag
does not fail — the source contains no tag validation and defines no
InvalidTag error — and the created workload's image is the primary repo
followed by a bare trailing colon. -/
theorem spawnCanary_empty_tag_counterexample :
    spawnCanary "nginx" { tag := "", replicas := 1 } "bold_cat"
        (Except.ok primaryNginx) =
      Except.ok
        { name := "nginx-canary-bold-cat"
          labels := [("app", "nginx"), ("track", "canary")]
          annotations := [("devops-tool-htmx", "true")]
          spec :=
            { replicas := some 1
              selector := { matchLabels := [("app", "nginx"), ("track", "canary")] }
              template :=
                { labels := [("app", "nginx"), ("track", "canary")]
                  spec := { containers := [{ image := "nginx:" }] } } }
          statusAvailableReplicas := 0 } := rfl

/-- C6 (amended): the spawner performs no tag validation — with an empty
tag it succeeds whenever the primary fetch succeeds and the cloned spec
declares a container, producing the repo image with a bare trailing colon —
and its only failure kinds are the propagated gateway error of the primary
fetch and the index-out-of-range panic on a container-less primary; no
InvalidTag failure exists. -/
theorem spawnCanary_failure_kinds :
    (∀ (name token : String) (req : CanaryCreateRequest)
        (getPrimary : Except GatewayError K8sDeployment) (e : AppError),
        spawnCanary name req token getPrimary = Except.error e →
        (∃ g, e = AppError.gateway g ∧ getPrimary = Except.error g) ∨
          e = AppError.panic GoPanic.indexOutOfRange) ∧
    (∀ (name token : String) (reps : Int) (d : K8sDeployment)
        (c : Container) (cs : List Container),
        d.spec.template.spec.containers = c :: cs →
        ∃ w, spawnCanary name { tag := "", replicas := reps } token
              (Except.ok d) = Except.ok w ∧
          w.spec.template.spec.containers.head?.map Container.image =
            some (splitFirstColon c.image ++ ":")) := by
  constructor
  · intro name token req getPrimary e h
    cases getPrimary with
    | error g =>
        simp only [spawnCanary] at h
        injection h with h1
        exact Or.inl ⟨g, h1.symm, rfl⟩
    | ok d =>
        cases hc : d.spec.template.spec.containers with
        | nil =>
            simp only [spawnCanary, hc] at h
            injection h with h1
            exact Or.inr h1.symm
        | cons c cs =>
            simp only [spawnCanary, hc] at h
            exact Except.noConfusion h
  · intro name token reps d c cs hc
    simp only [spawnCanary, hc]
    refine ⟨_, rfl, ?_⟩
    show some (canaryImage c.image "") = some (splitFirstColon c.image ++ ":")
    rw [canaryImage, String.append_empty]

/-- Witness for C6 (amended): a transport failure of the primary fetch is
the propagated error, and the example primary with an empty tag yields the
bare-colon image. -/
theorem spawnCanary_failure_kinds_witness :
    ((∃ g, AppError.gateway (GatewayError.transport "boom") = AppError.gateway g ∧
        (Except.error (GatewayError.transport "boom") :
            Except GatewayError K8sDeployment) = Except.error g) ∨
      AppError.gateway (GatewayError.transport "boom") =
        AppError.panic GoPanic.indexOutOfRange) ∧
    ∃ w, spawnCanary "nginx" { tag := "", replicas := 1 } "bold_cat"
          (Except.ok primaryNginx) = Except.ok w ∧
        w.spec.template.spec.containers.head?.map Container.image =
          some (splitFirstColon "nginx:1.25.0-alpine" ++ ":") :=
  ⟨spawnCanary_failure_kinds.1 "nginx" "bold_cat" { tag := "x", replicas := 1 }
      (Except.error (GatewayError.transport "boom"))
      (AppError.gateway (GatewayError.transport "boom")) rfl,
   spawnCanary_failure_kinds.2 "nginx" "bold_cat" 1 primaryNginx
      { image := "nginx:1.25.0-alpine" } [] rfl⟩
